import Mathlib

/-
Verification development for a backend-agnostic key/value storage layer
(three value shapes: UTF-8 strings, raw byte blobs, signed 64-bit counters,
each with optional TTL), with two backends:

- an in-process concurrent store (IMCModule) backed by one DashMap per value
  shape (src/storage/imc/{mod,sync_impl,async_impl}.rs), and
- a networked Redis adapter (src/storage/redis/async_impl.rs) that maps every
  shape onto a single Redis keyspace.

The embedding below is sequential: each operation takes the store state (and,
where the source reads the wall clock, the current time in whole seconds since
the epoch) and returns its result together with the successor state.  DashMap
is modelled as an association list with unique keys; DashMap.insert returns
the previous value for the key, DashMap.remove deletes it, DashMap.get reads
it.  Machine integers: timestamps are u64 values modelled as Nat (no claim
exercises u64 overflow); counter cells are i64 values modelled as Int together
with the explicit two's-complement wrap `wrap64` where the source relies on
AtomicI64.fetch_add wrap-around.
-/

/-- Result tag of every write operation.  Modelled from the spec: the
`types` module of the crate is not among the given sources; the spec defines
StoreState as the tag set {New, Updated} and every source file matches on
exactly the two variants `StoreState::New` and `StoreState::Updated`. -/
inductive StoreState where
  | new
  | updated
deriving DecidableEq

/-- Error taxonomy from src/errors.rs: JoinError (a background task failed),
ConnectionError (networked backend unreachable or command failed),
DeserializationError (persisted counter text does not parse).  The JoinError
payload (a tokio JoinError) carries no information the storage layer
inspects, so it is dropped. -/
inductive StorageError where
  | joinError
  | connectionError (msg : String)
  | deserializationError (msg : String)
deriving DecidableEq

/-- Association lists keyed by strings: the model of one DashMap shard
group.  The operations below keep keys unique. -/
abbrev KVList (α : Type) := List (String × α)

/-- Model of DashMap::get: the value stored at `k`, if any. -/
def kvGet {α : Type} (l : KVList α) (k : String) : Option α :=
  match l with
  | [] => none
  | (k', v) :: rest => if k' = k then some v else kvGet rest k

/-- Model of DashMap::remove (the state part): drop every binding of `k`. -/
def kvRemove {α : Type} (l : KVList α) (k : String) : KVList α :=
  match l with
  | [] => []
  | (k', v) :: rest =>
      if k' = k then kvRemove rest k else (k', v) :: kvRemove rest k

/-- Model of DashMap::insert: returns the previous value bound to `k`
(DashMap::insert returns `Option<V>`) and the state with `k` bound to `v`. -/
def kvInsert {α : Type} (l : KVList α) (k : String) (v : α) :
    Option α × KVList α :=
  (kvGet l k, (k, v) :: kvRemove l k)

/-- In-place update of the value bound to `k`, leaving the map structure
untouched: the model of mutating an `AtomicI64` cell through a DashMap
reference (fetch_add does not reinsert the cell). -/
def kvUpdate {α : Type} (l : KVList α) (k : String) (f : α → α) : KVList α :=
  match l with
  | [] => []
  | (k', v) :: rest =>
      if k' = k then (k', f v) :: kvUpdate rest k f
      else (k', v) :: kvUpdate rest k f

theorem kvGet_kvRemove_self {α : Type} (l : KVList α) (k : String) :
    kvGet (kvRemove l k) k = none := by
  induction l with
  | nil => rfl
  | cons p rest ih =>
      obtain ⟨k', v⟩ := p
      by_cases h : k' = k
      · simpa [kvRemove, h] using ih
      · simp [kvRemove, kvGet, h, ih]

theorem kvGet_kvRemove_ne {α : Type} (l : KVList α) (k k' : String)
    (h : k' ≠ k) : kvGet (kvRemove l k) k' = kvGet l k' := by
  induction l with
  | nil => rfl
  | cons p rest ih =>
      obtain ⟨k₀, v⟩ := p
      have hkk : k ≠ k' := fun hc => h hc.symm
      by_cases hk : k₀ = k
      · simp [kvRemove, kvGet, hk, hkk, ih]
      · by_cases hk' : k₀ = k'
        · simp [kvRemove, kvGet, hk, hk', h]
        · simp [kvRemove, kvGet, hk, hk', ih]

theorem kvGet_kvInsert_self {α : Type} (l : KVList α) (k : String) (v : α) :
    kvGet (kvInsert l k v).2 k = some v := by
  simp [kvInsert, kvGet]

theorem kvGet_kvInsert_ne {α : Type} (l : KVList α) (k k' : String) (v : α)
    (h : k' ≠ k) : kvGet (kvInsert l k v).2 k' = kvGet l k' := by
  have : k ≠ k' := fun hc => h hc.symm
  simp [kvInsert, kvGet, this, kvGet_kvRemove_ne l k k' h]

theorem kvGet_kvUpdate_self {α : Type} (l : KVList α) (k : String)
    (f : α → α) : kvGet (kvUpdate l k f) k = (kvGet l k).map f := by
  induction l with
  | nil => rfl
  | cons p rest ih =>
      obtain ⟨k₀, v⟩ := p
      by_cases hk : k₀ = k
      · simp [kvUpdate, kvGet, hk]
      · simp [kvUpdate, kvGet, hk, ih]

theorem kvGet_kvUpdate_ne {α : Type} (l : KVList α) (k k' : String)
    (f : α → α) (h : k' ≠ k) :
    kvGet (kvUpdate l k f) k' = kvGet l k' := by
  induction l with
  | nil => rfl
  | cons p rest ih =>
      obtain ⟨k₀, v⟩ := p
      have hkk : k ≠ k' := fun hc => h hc.symm
      by_cases hk : k₀ = k
      · simp [kvUpdate, kvGet, hk, hkk, ih]
      · by_cases hk' : k₀ = k'
        · simp [kvUpdate, kvGet, hk, hk', h]
        · simp [kvUpdate, kvGet, hk, hk', ih]

theorem kvUpdate_of_kvGet_none {α : Type} (l : KVList α) (k : String)
    (f : α → α) (h : kvGet l k = none) : kvUpdate l k f = l := by
  induction l with
  | nil => rfl
  | cons p rest ih =>
      obtain ⟨k₀, v⟩ := p
      by_cases hk : k₀ = k
      · simp [kvGet, hk] at h
      · simp [kvGet, hk] at h
        simp [kvUpdate, hk, ih h]

/-- Two's-complement wrap into the i64 range: the arithmetic performed by
AtomicI64.fetch_add on overflow. -/
def wrap64 (x : Int) : Int := (x + 2 ^ 63) % 2 ^ 64 - 2 ^ 63

theorem wrap64_lower (x : Int) : -(2 ^ 63) ≤ wrap64 x := by
  have h : (0 : Int) ≤ (x + 2 ^ 63) % 2 ^ 64 :=
    Int.emod_nonneg _ (by norm_num)
  unfold wrap64
  omega

theorem wrap64_upper (x : Int) : wrap64 x < 2 ^ 63 := by
  have h : (x + 2 ^ 63) % 2 ^ 64 < 2 ^ 64 :=
    Int.emod_lt_of_pos _ (by norm_num)
  unfold wrap64
  omega

theorem wrap64_of_range (x : Int) (h1 : -(2 ^ 63) ≤ x) (h2 : x < 2 ^ 63) :
    wrap64 x = x := by
  unfold wrap64
  rw [Int.emod_eq_of_lt (by omega) (by omega)]
  omega

/-- The in-process backend state, from src/storage/imc/mod.rs: one concurrent
map per value shape.  `string_store` maps keys to (string value, optional
absolute expiry in epoch seconds); `data_store` likewise for byte blobs
(Vec<u8> modelled as List Nat); `atomic_store` maps keys to the i64 value of
an AtomicI64 cell (counters carry no expiry field). -/
structure IMCModule where
  string_store : KVList (String × Option Nat)
  data_store : KVList (List Nat × Option Nat)
  atomic_store : KVList Int
deriving DecidableEq

/-- IMCModule::new with the (empty) IMCConfig: all three maps empty. -/
def IMC.new : IMCModule := ⟨[], [], []⟩

/-- Sync store_with_expiry (src/storage/imc/sync_impl.rs): absolute expiry is
now + ttl when a ttl is given; the pair is inserted in one map operation and
the tag reports whether a previous entry existed.  `t` is the value of the
`now()` helper at the call.  The Rust Result is always Ok here, so the
embedding returns the payload directly. -/
def IMC.store_with_expiry (m : IMCModule) (t : Nat) (key value : String)
    (expiry : Option Nat) : StoreState × IMCModule :=
  let current_time := expiry.map (fun e => t + e)
  let output := kvInsert m.string_store key (value, current_time)
  (match output.1 with
    | none => StoreState.new
    | some _ => StoreState.updated,
   { m with string_store := output.2 })

/-- Sync delete_string: unconditional remove; always succeeds. -/
def IMC.delete_string (m : IMCModule) (key : String) : IMCModule :=
  { m with string_store := kvRemove m.string_store key }

/-- Sync load_string: if the entry exists and carries an expiry strictly
below the current time, the source invokes `self.delete_string(key)` and
returns None; otherwise it returns a clone of the stored value. -/
def IMC.load_string (m : IMCModule) (t : Nat) (key : String) :
    Option String × IMCModule :=
  match kvGet m.string_store key with
  | some value =>
      match value.2 with
      | some expiry =>
          if expiry < t then (none, IMC.delete_string m key)
          else (some value.1, m)
      | none => (some value.1, m)
  | none => (none, m)

/-- Holds exactly on the code path where the sync load_string issues a call
to the delete_string operation: the entry exists and its expiry is strictly
below the current time (sync_impl.rs, the expired arm of the match). -/
def IMC.load_string_invokes_delete (m : IMCModule) (t : Nat)
    (key : String) : Bool :=
  match kvGet m.string_store key with
  | some value =>
      match value.2 with
      | some expiry => decide (expiry < t)
      | none => false
  | none => false

/-- Sync store_raw_with_expiry: same algorithm as store_with_expiry on the
byte-blob map. -/
def IMC.store_raw_with_expiry (m : IMCModule) (t : Nat) (key : String)
    (value : List Nat) (expiry : Option Nat) : StoreState × IMCModule :=
  let current_time := expiry.map (fun e => t + e)
  let output := kvInsert m.data_store key (value, current_time)
  (match output.1 with
    | none => StoreState.new
    | some _ => StoreState.updated,
   { m with data_store := output.2 })

/-- Sync delete_raw: unconditional remove on the byte-blob map. -/
def IMC.delete_raw (m : IMCModule) (key : String) : IMCModule :=
  { m with data_store := kvRemove m.data_store key }

/-- Sync load_raw: same algorithm as load_string on the byte-blob map (the
expired arm invokes delete_raw). -/
def IMC.load_raw (m : IMCModule) (t : Nat) (key : String) :
    Option (List Nat) × IMCModule :=
  match kvGet m.data_store key with
  | some value =>
      match value.2 with
      | some expiry =>
          if expiry < t then (none, IMC.delete_raw m key)
          else (some value.1, m)
      | none => (some value.1, m)
  | none => (none, m)

/-- Sync atomic_store: insert a fresh AtomicI64 cell holding `value`; the tag
reports whether a cell already existed. -/
def IMC.atomic_store (m : IMCModule) (key : String) (value : Int) :
    StoreState × IMCModule :=
  let output := kvInsert m.atomic_store key value
  (match output.1 with
    | none => StoreState.new
    | some _ => StoreState.updated,
   { m with atomic_store := output.2 })

/-- Sync atomic_load: SeqCst read of the cell, no mutation. -/
def IMC.atomic_load (m : IMCModule) (key : String) : Option Int :=
  kvGet m.atomic_store key

/-- Sync atomic_delete: unconditional remove on the counter map. -/
def IMC.atomic_delete (m : IMCModule) (key : String) : IMCModule :=
  { m with atomic_store := kvRemove m.atomic_store key }

/-- Sync atomic_increment: if a cell exists, fetch_add(value, SeqCst) on it —
the returned number is the value before the addition and the stored value
wraps in two's complement; if no cell exists, return None and leave the map
untouched. -/
def IMC.atomic_increment (m : IMCModule) (key : String) (value : Int) :
    Option Int × IMCModule :=
  match kvGet m.atomic_store key with
  | some atomic =>
      (some atomic,
       { m with
           atomic_store :=
             kvUpdate m.atomic_store key (fun a => wrap64 (a + value)) })
  | none => (none, m)

/-- Outcome of a tokio spawn_blocking task: either the closure ran to
completion, or joining it failed (panic or cancellation), which the source
maps to StorageError::JoinError via unwrap_or_else. -/
inductive TaskOutcome where
  | completed
  | failed
deriving DecidableEq

/-- Async store_with_expiry (src/storage/imc/async_impl.rs): the same insert
as the sync path, but run inside tokio::task::spawn_blocking; a join failure
surfaces as JoinError and, since the closure then never ran to completion,
the map is unchanged. -/
def IMCAsync.store_with_expiry (o : TaskOutcome) (m : IMCModule) (t : Nat)
    (key value : String) (expiry : Option Nat) :
    Except StorageError StoreState × IMCModule :=
  match o with
  | TaskOutcome.failed => (Except.error StorageError.joinError, m)
  | TaskOutcome.completed =>
      let p := IMC.store_with_expiry m t key value expiry
      (Except.ok p.1, p.2)

/-- Async load_string: the lookup runs inside spawn_blocking; on the expired
arm the closure removes the entry from the map directly (a raw
string_store.remove, not a call into delete_string).  The resulting state is
the same as the sync path. -/
def IMCAsync.load_string (o : TaskOutcome) (m : IMCModule) (t : Nat)
    (key : String) : Except StorageError (Option String) × IMCModule :=
  match o with
  | TaskOutcome.failed => (Except.error StorageError.joinError, m)
  | TaskOutcome.completed =>
      let p := IMC.load_string m t key
      (Except.ok p.1, p.2)

/-- Async delete_string: the remove runs inside spawn_blocking. -/
def IMCAsync.delete_string (o : TaskOutcome) (m : IMCModule) (key : String) :
    Except StorageError Unit × IMCModule :=
  match o with
  | TaskOutcome.failed => (Except.error StorageError.joinError, m)
  | TaskOutcome.completed => (Except.ok (), IMC.delete_string m key)

/-- Async store_raw_with_expiry: the same insert as the sync path, executed
inline (no spawn_blocking), so no JoinError is possible. -/
def IMCAsync.store_raw_with_expiry (m : IMCModule) (t : Nat) (key : String)
    (value : List Nat) (expiry : Option Nat) :
    Except StorageError StoreState × IMCModule :=
  let p := IMC.store_raw_with_expiry m t key value expiry
  (Except.ok p.1, p.2)

/-- Async load_raw: executed inline; the expired arm awaits delete_raw. -/
def IMCAsync.load_raw (m : IMCModule) (t : Nat) (key : String) :
    Except StorageError (Option (List Nat)) × IMCModule :=
  let p := IMC.load_raw m t key
  (Except.ok p.1, p.2)

/-- Async delete_raw: executed inline. -/
def IMCAsync.delete_raw (m : IMCModule) (key : String) :
    Except StorageError Unit × IMCModule :=
  (Except.ok (), IMC.delete_raw m key)

/-- Async atomic_store: executed inline. -/
def IMCAsync.atomic_store (m : IMCModule) (key : String) (value : Int) :
    Except StorageError StoreState × IMCModule :=
  let p := IMC.atomic_store m key value
  (Except.ok p.1, p.2)

/-- Async atomic_load: executed inline. -/
def IMCAsync.atomic_load (m : IMCModule) (key : String) :
    Except StorageError (Option Int) :=
  Except.ok (IMC.atomic_load m key)

/-- Async atomic_delete: executed inline. -/
def IMCAsync.atomic_delete (m : IMCModule) (key : String) :
    Except StorageError Unit × IMCModule :=
  (Except.ok (), IMC.atomic_delete m key)

/-- Async atomic_increment: executed inline. -/
def IMCAsync.atomic_increment (m : IMCModule) (key : String) (value : Int) :
    Except StorageError (Option Int) × IMCModule :=
  let p := IMC.atomic_increment m key value
  (Except.ok p.1, p.2)

/-- Trait default store_string (src/asynchronous.rs): delegates to
store_with_expiry with no expiry; no separate code path. -/
def IMCAsync.store_string (o : TaskOutcome) (m : IMCModule) (t : Nat)
    (key value : String) : Except StorageError StoreState × IMCModule :=
  IMCAsync.store_with_expiry o m t key value none

/-- Trait default store_raw (src/asynchronous.rs): delegates to
store_raw_with_expiry with no expiry. -/
def IMCAsync.store_raw (m : IMCModule) (t : Nat) (key : String)
    (value : List Nat) : Except StorageError StoreState × IMCModule :=
  IMCAsync.store_raw_with_expiry m t key value none

/-- The operations of the async in-process backend, for stating policies
that quantify over the operation set. -/
inductive AsyncOp where
  | store_with_expiry
  | store_string
  | load_string
  | delete_string
  | store_raw_with_expiry
  | store_raw
  | load_raw
  | delete_raw
  | atomic_store
  | atomic_load
  | atomic_delete
  | atomic_increment
deriving DecidableEq

/-- Which async in-process operations run their body inside
tokio::task::spawn_blocking and map a join failure to
StorageError::JoinError, read off src/storage/imc/async_impl.rs (and, for the
two trait defaults, off the operation they delegate to). -/
def offloaded : AsyncOp → Bool
  | AsyncOp.store_with_expiry => true
  | AsyncOp.store_string => true
  | AsyncOp.load_string => true
  | AsyncOp.delete_string => true
  | AsyncOp.store_raw_with_expiry => false
  | AsyncOp.store_raw => false
  | AsyncOp.load_raw => false
  | AsyncOp.delete_raw => false
  | AsyncOp.atomic_store => false
  | AsyncOp.atomic_load => false
  | AsyncOp.atomic_delete => false
  | AsyncOp.atomic_increment => false

/-- Which operations belong to the string value shape (the StringStorage and
StringStorageWithExpiry traits). -/
def stringShapeOp : AsyncOp → Bool
  | AsyncOp.store_with_expiry => true
  | AsyncOp.store_string => true
  | AsyncOp.load_string => true
  | AsyncOp.delete_string => true
  | _ => false

/-- Rust i64 parsing (str::parse::<i64>), used by the Redis adapter when it
reads a counter back: an optional single + or - sign followed by at least one
ASCII digit, nothing else, and the signed value must fit in i64. -/
def digitsVal (cs : List Char) : Option Nat :=
  cs.foldl
    (fun acc c =>
      match acc with
      | none => none
      | some n =>
          if c.isDigit then some (n * 10 + (c.toNat - Char.toNat (Char.ofNat 48)))
          else none)
    (some 0)

/-- See `digitsVal`; the full parse with sign handling and i64 range check. -/
def parseI64 (s : String) : Option Int :=
  match s.data with
  | [] => none
  | c :: rest =>
      if c = Char.ofNat 43 then
        if rest = [] then none
        else (digitsVal rest).bind
          (fun n => if n ≤ 2 ^ 63 - 1 then some (n : Int) else none)
      else if c = Char.ofNat 45 then
        if rest = [] then none
        else (digitsVal rest).bind
          (fun n => if n ≤ 2 ^ 63 then some (-(n : Int)) else none)
      else
        (digitsVal (c :: rest)).bind
          (fun n => if n ≤ 2 ^ 63 - 1 then some (n : Int) else none)

/-- Decidable equality of Except results, for evaluating the model on
concrete inputs. -/
instance {ε α : Type} [DecidableEq ε] [DecidableEq α] :
    DecidableEq (Except ε α) := fun a b =>
  match a, b with
  | Except.ok x, Except.ok y =>
      if h : x = y then isTrue (by rw [h]) else
        isFalse (fun hc => h (by injection hc))
  | Except.error x, Except.error y =>
      if h : x = y then isTrue (by rw [h]) else
        isFalse (fun hc => h (by injection hc))
  | Except.ok _, Except.error _ => isFalse (fun hc => by injection hc)
  | Except.error _, Except.ok _ => isFalse (fun hc => by injection hc)

/-- Option.transpose as the source uses it (Option<Result<..>> to
Result<Option<..>>). -/
def optTranspose {ε α : Type} : Option (Except ε α) → Except ε (Option α)
  | none => Except.ok none
  | some (Except.ok a) => Except.ok (some a)
  | some (Except.error e) => Except.error e

/-- The networked backend state: Redis holds a single keyspace mapping each
key to a byte-string value and an optional absolute expire-at time.  Every
adapter operation builds a RedisKey straight from the caller key, so all
three value shapes target this one keyspace.  The command semantics (EXISTS,
SET with EX, GET, DEL, INCRBY) are those of the external Redis service the
adapter talks to through the fred client. -/
structure RedisState where
  store : KVList (String × Option Nat)
deriving DecidableEq

/-- A key is live at time `t` when it has no expire-at or has not reached it
(native Redis expiring-key behaviour; no claim exercises the exact expiry
boundary of the external service). -/
def Redis.get (st : RedisState) (t : Nat) (k : String) : Option String :=
  match kvGet st.store k with
  | some (v, none) => some v
  | some (v, some e) => if t < e then some v else none
  | none => none

/-- EXISTS on one key. -/
def Redis.existsKey (st : RedisState) (t : Nat) (k : String) : Bool :=
  (Redis.get st t k).isSome

/-- SET with optional Expiration::EX seconds (relative, converted to an
absolute expire-at). -/
def Redis.set (st : RedisState) (t : Nat) (k v : String)
    (ex : Option Nat) : RedisState :=
  ⟨(kvInsert st.store k (v, ex.map (fun s => t + s))).2⟩

/-- DEL on one key. -/
def Redis.del (st : RedisState) (k : String) : RedisState :=
  ⟨kvRemove st.store k⟩

/-- INCRBY: reads the current value (a missing key counts as 0), errors when
the stored text is not an integer in the i64 range or when the sum leaves the
i64 range, otherwise stores the decimal text of the sum (keeping any TTL) and
returns the post-increment value. -/
def Redis.incr_by (st : RedisState) (t : Nat) (k : String) (d : Int) :
    Except StorageError Int × RedisState :=
  match Redis.get st t k with
  | none =>
      if -(2 ^ 63) ≤ d ∧ d < 2 ^ 63 then
        (Except.ok d, Redis.set st t k (toString d) none)
      else
        (Except.error (StorageError.connectionError
          "ERR increment or decrement would overflow"), st)
  | some s =>
      match parseI64 s with
      | none =>
          (Except.error (StorageError.connectionError
            "ERR value is not an integer or out of range"), st)
      | some cur =>
          if -(2 ^ 63) ≤ cur + d ∧ cur + d < 2 ^ 63 then
            (Except.ok (cur + d),
             ⟨kvUpdate st.store k (fun p => (toString (cur + d), p.2))⟩)
          else
            (Except.error (StorageError.connectionError
              "ERR increment or decrement would overflow"), st)

/-- Redis adapter store_with_expiry: EXISTS, then SET with the optional EX
expiration, then report Updated or New from the prior existence check.
Connection failures of the external service are outside the model, so the
Except is always ok here. -/
def Redis.store_with_expiry (st : RedisState) (t : Nat) (key value : String)
    (expiry : Option Nat) : Except StorageError StoreState × RedisState :=
  let ex := Redis.existsKey st t key
  (Except.ok (if ex then StoreState.updated else StoreState.new),
   Redis.set st t key value expiry)

/-- Redis adapter load_string: GET; absence is Ok none, never an error. -/
def Redis.load_string (st : RedisState) (t : Nat) (key : String) :
    Except StorageError (Option String) :=
  Except.ok (Redis.get st t key)

/-- Redis adapter delete_string: DEL; always Ok. -/
def Redis.delete_string (st : RedisState) (key : String) :
    Except StorageError Unit × RedisState :=
  (Except.ok (), Redis.del st key)

/-- Byte blobs are sent to Redis as binary-safe strings; the model injects a
byte list into the shared keyspace value type character by character. -/
def byteStr (b : List Nat) : String :=
  String.mk (b.map Char.ofNat)

/-- Redis adapter store_raw_with_expiry: same EXISTS-then-SET sequence as the
string path, on the same keyspace. -/
def Redis.store_raw_with_expiry (st : RedisState) (t : Nat) (key : String)
    (value : List Nat) (expiry : Option Nat) :
    Except StorageError StoreState × RedisState :=
  let ex := Redis.existsKey st t key
  (Except.ok (if ex then StoreState.updated else StoreState.new),
   Redis.set st t key (byteStr value) expiry)

/-- Redis adapter load_raw: GET, decoded back to bytes. -/
def Redis.load_raw (st : RedisState) (t : Nat) (key : String) :
    Except StorageError (Option (List Nat)) :=
  Except.ok ((Redis.get st t key).map (fun s => s.data.map Char.toNat))

/-- Redis adapter delete_raw: DEL. -/
def Redis.delete_raw (st : RedisState) (key : String) :
    Except StorageError Unit × RedisState :=
  (Except.ok (), Redis.del st key)

/-- Trait default store_string for the Redis adapter: delegates to
store_with_expiry with no expiry (src/asynchronous.rs default method, not
overridden by the adapter). -/
def Redis.store_string (st : RedisState) (t : Nat) (key value : String) :
    Except StorageError StoreState × RedisState :=
  Redis.store_with_expiry st t key value none

/-- Trait default store_raw for the Redis adapter: delegates to
store_raw_with_expiry with no expiry. -/
def Redis.store_raw (st : RedisState) (t : Nat) (key : String)
    (value : List Nat) : Except StorageError StoreState × RedisState :=
  Redis.store_raw_with_expiry st t key value none

/-- Redis adapter atomic_store: EXISTS, then SET of the decimal text of the
value with no expiration, then the Updated or New tag — into the same
keyspace as the other shapes. -/
def Redis.atomic_store (st : RedisState) (t : Nat) (key : String)
    (value : Int) : Except StorageError StoreState × RedisState :=
  let ex := Redis.existsKey st t key
  (Except.ok (if ex then StoreState.updated else StoreState.new),
   Redis.set st t key (toString value) none)

/-- Redis adapter atomic_load: GET, then parse the text as i64; a present
value that does not parse surfaces DeserializationError, a missing key is Ok
none. -/
def Redis.atomic_load (st : RedisState) (t : Nat) (key : String) :
    Except StorageError (Option Int) :=
  optTranspose ((Redis.get st t key).map (fun s =>
    match parseI64 s with
    | some n => Except.ok n
    | none =>
        Except.error (StorageError.deserializationError "Invalid integer")))

/-- Redis adapter atomic_delete: DEL. -/
def Redis.atomic_delete (st : RedisState) (key : String) :
    Except StorageError Unit × RedisState :=
  (Except.ok (), Redis.del st key)

/-- Redis adapter atomic_increment: a single INCRBY; its result is always
wrapped in Some. -/
def Redis.atomic_increment (st : RedisState) (t : Nat) (key : String)
    (d : Int) : Except StorageError (Option Int) × RedisState :=
  match Redis.incr_by st t key d with
  | (Except.ok n, st') => (Except.ok (some n), st')
  | (Except.error e, st') => (Except.error e, st')

/-- C4: a write operation of the in-process backend (store_with_expiry,
store_raw_with_expiry, atomic_store) returns Updated exactly when a prior
entry existed in the corresponding map before the write and New exactly when
none did; presence in the map is the only criterion, so an expired but not
yet purged entry still yields Updated. -/
theorem imc_write_tag_iff_prior_entry (m : IMCModule) (t : Nat)
    (k v : String) (b : List Nat) (e : Option Nat) (n : Int) :
    ((IMC.store_with_expiry m t k v e).1 = StoreState.updated ↔
      (kvGet m.string_store k).isSome = true)
    ∧ ((IMC.store_with_expiry m t k v e).1 = StoreState.new ↔
      kvGet m.string_store k = none)
    ∧ ((IMC.store_raw_with_expiry m t k b e).1 = StoreState.updated ↔
      (kvGet m.data_store k).isSome = true)
    ∧ ((IMC.store_raw_with_expiry m t k b e).1 = StoreState.new ↔
      kvGet m.data_store k = none)
    ∧ ((IMC.atomic_store m k n).1 = StoreState.updated ↔
      (kvGet m.atomic_store k).isSome = true)
    ∧ ((IMC.atomic_store m k n).1 = StoreState.new ↔
      kvGet m.atomic_store k = none) := by
  refine ⟨?_, ?_, ?_, ?_, ?_, ?_⟩
  · cases hg : kvGet m.string_store k <;>
      simp [IMC.store_with_expiry, kvInsert, hg]
  · cases hg : kvGet m.string_store k <;>
      simp [IMC.store_with_expiry, kvInsert, hg]
  · cases hg : kvGet m.data_store k <;>
      simp [IMC.store_raw_with_expiry, kvInsert, hg]
  · cases hg : kvGet m.data_store k <;>
      simp [IMC.store_raw_with_expiry, kvInsert, hg]
  · cases hg : kvGet m.atomic_store k <;>
      simp [IMC.atomic_store, kvInsert, hg]
  · cases hg : kvGet m.atomic_store k <;>
      simp [IMC.atomic_store, kvInsert, hg]

/-- C5: storing a value with an absent TTL or one that has not elapsed by
the time of the read, then loading the same key, returns exactly the stored
value, for the string shape and the byte shape alike. -/
theorem imc_round_trip (m : IMCModule) (t t' : Nat) (k v : String)
    (b : List Nat) (e : Option Nat) (h : ∀ s, e = some s → t' ≤ t + s) :
    (IMC.load_string ((IMC.store_with_expiry m t k v e).2) t' k).1 = some v
    ∧ (IMC.load_raw ((IMC.store_raw_with_expiry m t k b e).2) t' k).1
        = some b := by
  cases e with
  | none =>
      constructor <;>
        simp [IMC.store_with_expiry, IMC.store_raw_with_expiry,
          IMC.load_string, IMC.load_raw, kvInsert, kvGet]
  | some s =>
      have hs : ¬(t + s < t') := by
        have := h s rfl
        omega
      constructor <;>
        simp [IMC.store_with_expiry, IMC.store_raw_with_expiry,
          IMC.load_string, IMC.load_raw, kvInsert, kvGet, hs]

/-- Witness for imc_round_trip at a concrete input with a live TTL. -/
theorem imc_round_trip_witness :
    (IMC.load_string ((IMC.store_with_expiry IMC.new 10 "k" "v"
        (some 60)).2) 12 "k").1 = some "v"
    ∧ (IMC.load_raw ((IMC.store_raw_with_expiry IMC.new 10 "k" [7]
        (some 60)).2) 12 "k").1 = some [7] :=
  imc_round_trip IMC.new 10 12 "k" "v" [7] (some 60)
    (by intro s hs; injection hs with h1; omega)

/-- C3 fails as stated: with ttl 0 the stored absolute expiry equals the
store time, and the read rule is expired-iff-expiry-strictly-below-now, so a
load in the same whole second still returns the value instead of absent. -/
theorem ttl_zero_same_second_counterexample :
    (IMC.load_string ((IMC.store_with_expiry IMC.new 5 "k" "v"
        (some 0)).2) 5 "k").1 = some "v"
    ∧ some "v" ≠ (none : Option String) := by
  exact ⟨by decide, by decide⟩

/-- C3 amended: store_with_expiry(k, v, Some(0)) at time t followed by
load(k) returns absent exactly from the next whole second on (t < t');
a load in the same whole second still returns the value. -/
theorem ttl_zero_expires_strictly_after (m : IMCModule) (t t' : Nat)
    (k v : String) (h : t < t') :
    (IMC.load_string ((IMC.store_with_expiry m t k v (some 0)).2) t' k).1
      = none
    ∧ (IMC.load_string ((IMC.store_with_expiry m t k v (some 0)).2) t k).1
      = some v := by
  constructor
  · simp [IMC.store_with_expiry, IMC.load_string, kvInsert, kvGet, h]
  · simp [IMC.store_with_expiry, IMC.load_string, kvInsert, kvGet]

/-- Witness for ttl_zero_expires_strictly_after at t = 5, t' = 6. -/
theorem ttl_zero_expires_strictly_after_witness :
    (IMC.load_string ((IMC.store_with_expiry IMC.new 5 "k" "v"
        (some 0)).2) 6 "k").1 = none
    ∧ (IMC.load_string ((IMC.store_with_expiry IMC.new 5 "k" "v"
        (some 0)).2) 5 "k").1 = some "v" :=
  ttl_zero_expires_strictly_after IMC.new 5 6 "k" "v" (by decide)

/-- C1 fails as stated for the networked backend: its atomic_increment is a
single Redis INCRBY, which on a key with no counter cell creates the counter
at 0, adds the delta, and returns the post-increment value — here Some 5
instead of absent — and the following atomic_load sees the created cell. -/
theorem redis_increment_autovivifies_counterexample :
    (Redis.atomic_increment ⟨[]⟩ 0 "k" 5).1 = Except.ok (some 5)
    ∧ Redis.atomic_load (Redis.atomic_increment ⟨[]⟩ 0 "k" 5).2 0 "k"
        = Except.ok (some 5)
    ∧ (some (5 : Int)) ≠ none := by
  refine ⟨by decide, by decide, by decide⟩

/-- C1 amended (restricted to the in-process backend): atomic_increment
returns the value held before the increment — absent when no counter cell
exists — and when no cell exists it performs no mutation at all, so a
following atomic_load still returns absent; it never creates a cell. -/
theorem imc_atomic_increment_fetch_add (m : IMCModule) (k : String)
    (d : Int) :
    (IMC.atomic_increment m k d).1 = IMC.atomic_load m k
    ∧ IMC.atomic_load (IMC.atomic_increment m k d).2 k
        = (IMC.atomic_load m k).map (fun v => wrap64 (v + d))
    ∧ (IMC.atomic_load m k = none → (IMC.atomic_increment m k d).2 = m) := by
  cases hg : kvGet m.atomic_store k with
  | none => simp [IMC.atomic_increment, IMC.atomic_load, hg]
  | some a =>
      simp [IMC.atomic_increment, IMC.atomic_load, hg, kvGet_kvUpdate_self]

/-- Witness for imc_atomic_increment_fetch_add: on the empty store the
no-cell hypothesis holds and the increment leaves the state untouched. -/
theorem imc_atomic_increment_fetch_add_witness :
    IMC.atomic_load IMC.new "k" = none
    ∧ (IMC.atomic_increment IMC.new "k" 5).2 = IMC.new :=
  ⟨by decide, (imc_atomic_increment_fetch_add IMC.new "k" 5).2.2 (by decide)⟩

/-- C2 fails as stated on the purge clause: in the sync string read path the
expired arm is a call into the delete_string operation (a second logical
operation), not a single-pass removal; here is a concrete expired entry on
which that path fires and the post-state is exactly delete_string of the
pre-state. -/
theorem load_string_purge_invokes_delete_counterexample :
    IMC.load_string_invokes_delete ⟨[("k", ("v", some 3))], [], []⟩ 10 "k"
      = true
    ∧ (IMC.load_string ⟨[("k", ("v", some 3))], [], []⟩ 10 "k").2
        = IMC.delete_string ⟨[("k", ("v", some 3))], [], []⟩ "k" := by
  refine ⟨by decide, by decide⟩

/-- C2 amended: a key whose entry carries an absolute expiry strictly below
the current time is never returned by load_string — the read returns absent
and the entry is removed from the map — but the purge is performed by
invoking the delete operation on the read path rather than by a
non-reentrant single-pass removal. -/
theorem imc_expired_load_absent_and_purged (m : IMCModule) (t : Nat)
    (k v : String) (e : Nat)
    (h : kvGet m.string_store k = some (v, some e)) (he : e < t) :
    (IMC.load_string m t k).1 = none
    ∧ kvGet ((IMC.load_string m t k).2).string_store k = none
    ∧ (IMC.load_string m t k).2 = IMC.delete_string m k := by
  simp [IMC.load_string, h, he, IMC.delete_string, kvGet_kvRemove_self]

/-- Witness for imc_expired_load_absent_and_purged on a concrete expired
entry. -/
theorem imc_expired_load_absent_and_purged_witness :
    (IMC.load_string ⟨[("a", ("v", some 3))], [], []⟩ 9 "a").1 = none
    ∧ kvGet ((IMC.load_string ⟨[("a", ("v", some 3))], [], []⟩ 9
        "a").2).string_store "a" = none
    ∧ (IMC.load_string ⟨[("a", ("v", some 3))], [], []⟩ 9 "a").2
        = IMC.delete_string ⟨[("a", ("v", some 3))], [], []⟩ "a" :=
  imc_expired_load_absent_and_purged ⟨[("a", ("v", some 3))], [], []⟩ 9
    "a" "v" 3 (by decide) (by decide)

/-- C10: on an existing counter cell the in-process atomic_increment is a
total fetch-and-add for every current value and delta in the i64 range: it
returns the pre-increment value and the stored value becomes the
two's-complement wrap of their sum, which is again in the i64 range — no
overflow error exists on this path. -/
theorem imc_increment_wraps (m : IMCModule) (k : String) (d v : Int)
    (h : IMC.atomic_load m k = some v)
    (_hv : -(2 ^ 63) ≤ v ∧ v < 2 ^ 63)
    (_hd : -(2 ^ 63) ≤ d ∧ d < 2 ^ 63) :
    (IMC.atomic_increment m k d).1 = some v
    ∧ IMC.atomic_load (IMC.atomic_increment m k d).2 k
        = some (wrap64 (v + d))
    ∧ -(2 ^ 63) ≤ wrap64 (v + d) ∧ wrap64 (v + d) < 2 ^ 63 := by
  have hg : kvGet m.atomic_store k = some v := h
  refine ⟨?_, ?_, wrap64_lower _, wrap64_upper _⟩
  · simp [IMC.atomic_increment, hg]
  · simp [IMC.atomic_increment, IMC.atomic_load, hg, kvGet_kvUpdate_self]

/-- Witness for imc_increment_wraps at the i64 maximum: incrementing a cell
holding 2^63 - 1 by 1 returns the old value and wraps the cell to -2^63. -/
theorem imc_increment_wraps_witness :
    ((IMC.atomic_increment ⟨[], [], [("k", 2 ^ 63 - 1)]⟩ "k" 1).1
      = some (2 ^ 63 - 1)
    ∧ IMC.atomic_load
        (IMC.atomic_increment ⟨[], [], [("k", 2 ^ 63 - 1)]⟩ "k" 1).2 "k"
      = some (wrap64 (2 ^ 63 - 1 + 1))
    ∧ -(2 ^ 63) ≤ wrap64 (2 ^ 63 - 1 + 1)
    ∧ wrap64 (2 ^ 63 - 1 + 1) < 2 ^ 63)
    ∧ wrap64 (2 ^ 63 - 1 + 1) = -(2 ^ 63) :=
  ⟨imc_increment_wraps ⟨[], [], [("k", 2 ^ 63 - 1)]⟩ "k" 1 (2 ^ 63 - 1)
    (by decide) (by decide) (by decide), by decide⟩

theorem imc_load_string_frame (m : IMCModule) (t : Nat) (k : String) :
    (IMC.load_string m t k).2.data_store = m.data_store
    ∧ (IMC.load_string m t k).2.atomic_store = m.atomic_store := by
  simp only [IMC.load_string]
  rcases hg : kvGet m.string_store k with _ | ⟨v', _ | ex⟩ <;>
    simp [hg, IMC.delete_string]
  by_cases hx : ex < t <;> simp [hx, IMC.delete_string]

theorem imc_load_raw_frame (m : IMCModule) (t : Nat) (k : String) :
    (IMC.load_raw m t k).2.string_store = m.string_store
    ∧ (IMC.load_raw m t k).2.atomic_store = m.atomic_store := by
  simp only [IMC.load_raw]
  rcases hg : kvGet m.data_store k with _ | ⟨v', _ | ex⟩ <;>
    simp [hg, IMC.delete_raw]
  by_cases hx : ex < t <;> simp [hx, IMC.delete_raw]

theorem imc_atomic_increment_frame (m : IMCModule) (k : String) (d : Int) :
    (IMC.atomic_increment m k d).2.string_store = m.string_store
    ∧ (IMC.atomic_increment m k d).2.data_store = m.data_store := by
  simp only [IMC.atomic_increment]
  rcases hg : kvGet m.atomic_store k with _ | a <;> simp [hg]

theorem imc_load_string_fst (m : IMCModule) (t : Nat) (k : String) :
    (IMC.load_string m t k).1 =
      match kvGet m.string_store k with
      | some (v', some ex) => if ex < t then none else some v'
      | some (v', none) => some v'
      | none => none := by
  simp only [IMC.load_string]
  rcases hg : kvGet m.string_store k with _ | ⟨v', _ | ex⟩ <;> simp [hg]
  by_cases hx : ex < t <;> simp [hx]

/-- C6 fails as stated for the networked backend: all three value shapes
target the single Redis keyspace, so after storing string "v" under "k" the
counter store to the same key reports Updated, the string load then sees the
counter text "7", and an atomic_load issued while the string value is in
place fails to parse it. -/
theorem redis_shapes_share_keyspace_counterexample :
    (Redis.atomic_store ((Redis.store_with_expiry ⟨[]⟩ 0 "k" "v"
        none).2) 0 "k" 7).1 = Except.ok StoreState.updated
    ∧ Redis.load_string ((Redis.atomic_store ((Redis.store_with_expiry
        ⟨[]⟩ 0 "k" "v" none).2) 0 "k" 7).2) 0 "k" = Except.ok (some "7")
    ∧ Redis.atomic_load ((Redis.store_with_expiry ⟨[]⟩ 0 "k" "v"
        none).2) 0 "k"
      = Except.error (StorageError.deserializationError "Invalid integer")
    := by
  refine ⟨by decide, by decide, by decide⟩

/-- C6 amended (restricted to the in-process backend): the three value
shapes live in three independent maps — every operation of one shape leaves
the other two shapes' maps untouched, and after storing the same key as both
a string and a counter each load returns its own value. -/
theorem imc_shape_isolation (m : IMCModule) (t : Nat) (k v : String)
    (b : List Nat) (e : Option Nat) (n d : Int) :
    ((IMC.store_with_expiry m t k v e).2.data_store = m.data_store
      ∧ (IMC.store_with_expiry m t k v e).2.atomic_store = m.atomic_store)
    ∧ ((IMC.load_string m t k).2.data_store = m.data_store
      ∧ (IMC.load_string m t k).2.atomic_store = m.atomic_store)
    ∧ ((IMC.delete_string m k).data_store = m.data_store
      ∧ (IMC.delete_string m k).atomic_store = m.atomic_store)
    ∧ ((IMC.store_raw_with_expiry m t k b e).2.string_store = m.string_store
      ∧ (IMC.store_raw_with_expiry m t k b e).2.atomic_store
          = m.atomic_store)
    ∧ ((IMC.load_raw m t k).2.string_store = m.string_store
      ∧ (IMC.load_raw m t k).2.atomic_store = m.atomic_store)
    ∧ ((IMC.delete_raw m k).string_store = m.string_store
      ∧ (IMC.delete_raw m k).atomic_store = m.atomic_store)
    ∧ ((IMC.atomic_store m k n).2.string_store = m.string_store
      ∧ (IMC.atomic_store m k n).2.data_store = m.data_store)
    ∧ ((IMC.atomic_delete m k).string_store = m.string_store
      ∧ (IMC.atomic_delete m k).data_store = m.data_store)
    ∧ ((IMC.atomic_increment m k d).2.string_store = m.string_store
      ∧ (IMC.atomic_increment m k d).2.data_store = m.data_store)
    ∧ IMC.atomic_load ((IMC.store_with_expiry m t k v e).2) k
        = IMC.atomic_load m k
    ∧ (IMC.load_string ((IMC.atomic_store m k n).2) t k).1
        = (IMC.load_string m t k).1
    ∧ (IMC.load_string ((IMC.atomic_store ((IMC.store_with_expiry m t k v
        none).2) k n).2) t k).1 = some v
    ∧ IMC.atomic_load ((IMC.atomic_store ((IMC.store_with_expiry m t k v
        none).2) k n).2) k = some n := by
  refine ⟨⟨rfl, rfl⟩, imc_load_string_frame m t k, ⟨rfl, rfl⟩,
    ⟨rfl, rfl⟩, imc_load_raw_frame m t k, ⟨rfl, rfl⟩,
    ⟨rfl, rfl⟩, ⟨rfl, rfl⟩, imc_atomic_increment_frame m k d,
    rfl, ?_, ?_, ?_⟩
  · rw [imc_load_string_fst, imc_load_string_fst]
    rfl
  · rw [imc_load_string_fst]
    simp [IMC.atomic_store, IMC.store_with_expiry, kvInsert, kvGet]
  · simp [IMC.atomic_load, IMC.atomic_store, IMC.store_with_expiry,
      kvInsert, kvGet]

/-- C7: for both backends the convenience store operations are the trait
default methods delegating to the TTL-aware operation with no TTL — the
result and the successor state are identical. -/
theorem store_defaults_delegate :
    (∀ (o : TaskOutcome) (m : IMCModule) (t : Nat) (k v : String),
      IMCAsync.store_string o m t k v
        = IMCAsync.store_with_expiry o m t k v none)
    ∧ (∀ (m : IMCModule) (t : Nat) (k : String) (b : List Nat),
      IMCAsync.store_raw m t k b = IMCAsync.store_raw_with_expiry m t k b
        none)
    ∧ (∀ (st : RedisState) (t : Nat) (k v : String),
      Redis.store_string st t k v = Redis.store_with_expiry st t k v none)
    ∧ (∀ (st : RedisState) (t : Nat) (k : String) (b : List Nat),
      Redis.store_raw st t k b = Redis.store_raw_with_expiry st t k b
        none) :=
  ⟨fun _ _ _ _ _ => rfl, fun _ _ _ _ => rfl, fun _ _ _ _ => rfl,
    fun _ _ _ _ => rfl⟩

/-- C8: the networked atomic_load surfaces DeserializationError exactly when
a value is present for the key but its text does not parse as an i64; when
the text parses it returns exactly the parsed integer, and a missing key is
Ok none, never an error. -/
theorem redis_atomic_load_parse (st : RedisState) (t : Nat) (k : String) :
    (Redis.atomic_load st t k = Except.ok none ↔ Redis.get st t k = none)
    ∧ (∀ n : Int, Redis.atomic_load st t k = Except.ok (some n) ↔
        ∃ s, Redis.get st t k = some s ∧ parseI64 s = some n)
    ∧ ((∃ msg, Redis.atomic_load st t k
          = Except.error (StorageError.deserializationError msg)) ↔
        ∃ s, Redis.get st t k = some s ∧ parseI64 s = none) := by
  cases hg : Redis.get st t k with
  | none => simp [Redis.atomic_load, optTranspose, hg]
  | some s =>
      cases hp : parseI64 s with
      | none => simp [Redis.atomic_load, optTranspose, hg, hp]
      | some n' => simp [Redis.atomic_load, optTranspose, hg, hp]

/-- C9 fails as stated: background offloading in the async in-process
backend is not uniform — store_with_expiry runs in spawn_blocking while
store_raw_with_expiry does not, so it is neither the case that every
operation can surface TaskFailure nor that none can. -/
theorem offloading_not_uniform_counterexample :
    ¬((∀ op : AsyncOp, offloaded op = true)
      ∨ (∀ op : AsyncOp, offloaded op = false)) := by
  intro h
  rcases h with h | h
  · exact absurd (h AsyncOp.store_raw_with_expiry) (by decide)
  · exact absurd (h AsyncOp.store_with_expiry) (by decide)

/-- C9 amended: offloading is applied selectively along the value-shape
split — exactly the string-shape operations run in spawn_blocking and can
surface TaskFailure (JoinError); byte and counter operations run inline and
never can. -/
theorem offloading_exactly_string_shape :
    (∀ op : AsyncOp, offloaded op = stringShapeOp op)
    ∧ (∀ (m : IMCModule) (t : Nat) (k v : String) (e : Option Nat),
        (IMCAsync.store_with_expiry TaskOutcome.failed m t k v e).1
          = Except.error StorageError.joinError)
    ∧ (∀ (m : IMCModule) (t : Nat) (k : String) (b : List Nat)
        (e : Option Nat),
        (IMCAsync.store_raw_with_expiry m t k b e).1
          ≠ Except.error StorageError.joinError)
    ∧ (∀ (m : IMCModule) (k : String) (d : Int),
        (IMCAsync.atomic_increment m k d).1
          ≠ Except.error StorageError.joinError) := by
  refine ⟨?_, ?_, ?_, ?_⟩
  · intro op; cases op <;> rfl
  · intro m t k v e; rfl
  · intro m t k b e h
    simp [IMCAsync.store_raw_with_expiry] at h
  · intro m k d h
    simp [IMCAsync.atomic_increment] at h
